import Mathlib

/-!
A shallow embedding of `src/contributions.py` (a GitHub contributions
scanner) together with proofs of its specification properties.

Each definition translates one Python function or code path of the source
file; comments cite the lines they embed.  Asynchronous loops and
generators are embedded as fuel-indexed structural recursions: a `some`
result means the Python loop terminates and produces that value, `none`
means the given fuel did not suffice.  Side effects relevant to the
properties (HTTP requests, sleeps, semaphore acquisition and release) are
made explicit as event traces.
-/

/-- Line 13: `GITHUB_DEFAULT_BASE_URL = "https://api.github.com"`. -/
def GITHUB_DEFAULT_BASE_URL : String := "https://api.github.com"

/-- JSON values, as produced by `resp.json()`.  Numbers are modelled as
integers, which suffices for the payloads the script inspects. -/
inductive JVal where
  | null
  | bool (b : Bool)
  | num (n : Int)
  | str (s : String)
  | arr (elems : List JVal)
  | obj (fields : List (String × JVal))

/-- Python truthiness of a JSON value, as tested by
`if not res.get('data', None)` at line 95: `None`, `False`, `0`, `""`,
`[]` and `{}` are all falsy. -/
def JVal.truthy : JVal → Bool
  | .null => false
  | .bool b => b
  | .num n => n != 0
  | .str s => s != ""
  | .arr elems => !elems.isEmpty
  | .obj fields => !fields.isEmpty

/-- The exceptions visible at the task boundary (`except RuntimeError`,
line 264).  `protocolError` is the `RuntimeError` raised at line 99 (the
spec's ProtocolError), carrying either the server-reported `errors` value
or the raw response body; `transportError` is the `RuntimeError` raised at
line 139 (the spec's TransportError), carrying exactly the message string
the Python exception is built from; `networkError` stands for a failure
of the HTTP layer itself (an `aiohttp` client error such as a connection
reset), which is not a `RuntimeError`. -/
inductive PyExc where
  | protocolError (reason : JVal ⊕ String)
  | transportError (msg : String)
  | networkError (msg : String)

/-- Whether `except RuntimeError` (line 264) catches the exception:
`aiohttp` client errors do not derive from `RuntimeError`. -/
def PyExc.isRuntimeError : PyExc → Bool
  | .protocolError _ => true
  | .transportError _ => true
  | .networkError _ => false

/-- Lines 90-100, `GHClient.gql_request`.  `res` is the parsed JSON object
of the response (`resp.json()`), `text` the raw body (`resp.text()`).
Mirrors `if not res.get('data', None): reason = res.get('errors', text);
raise RuntimeError(...)` and `return res['data']`. -/
def gql_request (res : List (String × JVal)) (text : String) : Except PyExc JVal :=
  let dataVal := (List.lookup "data" res).getD JVal.null
  if dataVal.truthy then
    Except.ok dataVal
  else
    match List.lookup "errors" res with
    | some errs => Except.error (PyExc.protocolError (Sum.inl errs))
    | none => Except.error (PyExc.protocolError (Sum.inr text))

/-- The `pageInfo` object of a cursor-paged query (lines 65-69). -/
structure PageInfo where
  hasNextPage : Bool
  endCursor : String
  deriving DecidableEq

/-- One page answered by a page-fetch function: the items under the paged
field plus the page's `pageInfo` (lines 61-65). -/
structure Page (α : Type) where
  items : List α
  pageInfo : PageInfo
  deriving DecidableEq

/-- Lines 57-71, the `paginated` decorator's `wrapper` loop.  `f` is the
wrapped page-fetch function; it may be stateful (state type `σ`), which
models a mocked endpoint answering a fixed page sequence.  The result, when
the fuel suffices, is the list of all yielded items together with the list
of `after` arguments passed to `f`, one per invocation in order.  Mirrors:
start with `after = None`; fetch; yield every item of the page; stop if
`hasNextPage` is false; otherwise continue with `after = endCursor`. -/
def paginatedFuel {α σ : Type} (f : σ → Option String → Page α × σ) :
    Nat → σ → Option String → Option (List α × List (Option String))
  | 0, _, _ => none
  | fuel+1, s, after =>
    let pr := f s after
    if pr.1.pageInfo.hasNextPage then
      match paginatedFuel f fuel pr.2 (some pr.1.pageInfo.endCursor) with
      | none => none
      | some rest => some (pr.1.items ++ rest.1, after :: rest.2)
    else
      some (pr.1.items, [after])

/-- A stateful page-fetch function that answers a fixed list of pages in
order, regardless of the cursor it receives: the mocked endpoint of the
spec's pagination properties.  The state counts the calls made so far. -/
def pagesFetch {α : Type} (ps : List (Page α)) : Nat → Option String → Page α × Nat :=
  fun k _ => (ps.getD k ⟨[], ⟨false, ""⟩⟩, k + 1)

lemma paginatedFuel_step {α σ : Type} (f : σ → Option String → Page α × σ)
    (fuel : Nat) (s : σ) (after : Option String) :
    paginatedFuel f (fuel + 1) s after =
      (if (f s after).1.pageInfo.hasNextPage then
        match paginatedFuel f fuel (f s after).2 (some (f s after).1.pageInfo.endCursor) with
        | none => none
        | some rest => some ((f s after).1.items ++ rest.1, after :: rest.2)
      else
        some ((f s after).1.items, [after])) := rfl

lemma pagesFetch_shift {α : Type} (p : Page α) (rest : List (Page α)) :
    ∀ (fuel k : Nat) (after : Option String),
    paginatedFuel (pagesFetch (p :: rest)) fuel (k + 1) after =
      paginatedFuel (pagesFetch rest) fuel k after := by
  intro fuel
  induction fuel with
  | zero => intro k after; rfl
  | succ n ih =>
    intro k after
    simp only [paginatedFuel, pagesFetch, List.getD_cons_succ]
    rw [ih]

lemma paginatedFuel_pagesFetch {α : Type} (ps : List (Page α)) :
    ∀ (a0 : Option String) (hne : ps ≠ []),
    (∀ p ∈ ps.dropLast, p.pageInfo.hasNextPage = true) →
    (ps.getLast hne).pageInfo.hasNextPage = false →
    paginatedFuel (pagesFetch ps) ps.length 0 a0 =
      some ((ps.map Page.items).flatten,
            a0 :: ps.dropLast.map (fun p => some p.pageInfo.endCursor)) := by
  induction ps with
  | nil => intro a0 hne _ _; exact absurd rfl hne
  | cons p rest ih =>
    intro a0 hne hmid hlast
    cases rest with
    | nil =>
      have hp : p.pageInfo.hasNextPage = false := hlast
      simp [paginatedFuel, pagesFetch, hp]
    | cons q rs =>
      have hp : p.pageInfo.hasNextPage = true := by
        apply hmid
        simp [List.dropLast]
      have hne' : q :: rs ≠ [] := by simp
      have hmid' : ∀ x ∈ (q :: rs).dropLast, x.pageInfo.hasNextPage = true := by
        intro x hx
        apply hmid
        simp [List.dropLast, hx]
      have hlast' : ((q :: rs).getLast hne').pageInfo.hasNextPage = false := by
        rw [← List.getLast_cons hne' (a := p)]
        exact hlast
      have hrec := ih (some p.pageInfo.endCursor) hne' hmid' hlast'
      rw [List.length_cons, paginatedFuel_step]
      simp only [pagesFetch, List.getD_cons_zero, hp, if_true]
      rw [pagesFetch_shift, hrec]
      simp [List.dropLast]

/-- Claim C2: for every finite sequence of pages whose last page has
`hasNextPage = false` and every earlier page `hasNextPage = true`, the
`paginated` wrapper (lines 57-71) yields exactly the concatenation of all
pages' item lists in page order and then terminates, having invoked the
fetch function once per page: with no cursor (`after = None`) for the first
page and, for every page k+1, with `after` equal to the `endCursor`
returned by page k. -/
theorem paginator_spec {α : Type} (ps : List (Page α)) (hne : ps ≠ [])
    (hmid : ∀ p ∈ ps.dropLast, p.pageInfo.hasNextPage = true)
    (hlast : (ps.getLast hne).pageInfo.hasNextPage = false) :
    paginatedFuel (pagesFetch ps) ps.length 0 none =
      some ((ps.map Page.items).flatten,
            none :: ps.dropLast.map (fun p => some p.pageInfo.endCursor)) :=
  paginatedFuel_pagesFetch ps none hne hmid hlast

/-- Witness for `paginator_spec`: a concrete two-page sequence. -/
theorem paginator_spec_witness :
    paginatedFuel
      (pagesFetch ([⟨["a", "b"], ⟨true, "c1"⟩⟩, ⟨["c"], ⟨false, "c2"⟩⟩] : List (Page String)))
      2 0 none = some (["a", "b", "c"], [none, some "c1"]) :=
  paginator_spec [⟨["a", "b"], ⟨true, "c1"⟩⟩, ⟨["c"], ⟨false, "c2"⟩⟩]
    (by decide) (by decide) (by decide)

/-- The author object of one contributor-stats record (`c['author']`). -/
structure Author where
  login : String
  deriving DecidableEq

/-- One record of the stats endpoint's 200 payload: `{author: {login}, ...}`.
The remaining numeric fields are opaque to the script and modelled as an
association list (for example `[("total", 5)]`). -/
structure Contrib where
  author : Author
  extra : List (String × Int)
  deriving DecidableEq

/-- One HTTP response of the stats endpoint: its status code, its parsed
JSON payload when it is a 200 (`resp.json()`, line 135) and its raw body
text (`resp.text()`, line 137). -/
structure HttpResp where
  status : Nat
  contribs : List Contrib
  text : String

/-- Lines 119-121: the stats endpoint path, `'/repos/{owner}/{repo}/stats/contributors'`,
prefixed with `'/v3'` when the configured base url differs from
`GITHUB_DEFAULT_BASE_URL`. -/
def statsPath (baseUrl owner repo : String) : String :=
  let path := "/repos/" ++ owner ++ "/" ++ repo ++ "/stats/contributors"
  if baseUrl != GITHUB_DEFAULT_BASE_URL then "/v3" ++ path else path

/-- Line 82 / line 77: `self.contributors_delay = contrib_delay`, whose
default in `GHClient.__init__` is 5 (seconds). -/
def contribDelayDefault : Nat := 5

/-- Observable events of one stats fetch: acquisition and release of the
global request semaphore (lines 106-110, entered and left by the
`async with self.request(...)` block), acquisition and release of the
contributors semaphore (line 113), one HTTP GET (line 109), and one
`asyncio.sleep` (line 126). -/
inductive Ev where
  | acqGlobal
  | relGlobal
  | acqStats
  | relStats
  | httpGet (path : String)
  | sleepEv (duration : Nat)
  deriving DecidableEq

/-- Lines 117-140, `GHClient.__contributors`: the poll loop, driven by the
response of the k-th request (`responses k`).  Every iteration enters
`async with self.request('get', path)` — which acquires the global
semaphore, performs the GET and, on leaving the block, releases the
semaphore — and then branches on the status exactly in source order:
202 sleeps `contributors_delay` *inside* the request block and retries;
204 and 403 return `[]`; 200 returns the parsed payload; anything else
raises `RuntimeError(f'unexpected response status {resp.status}')` (the
block is unwound, so the release still happens, before the exception
propagates).  The result is `none` when the fuel does not suffice,
otherwise the outcome paired with the full event trace. -/
def contributorsLoop (responses : Nat → HttpResp) (delay : Nat)
    (baseUrl owner repo : String) :
    Nat → Nat → Option (Except PyExc (List Contrib)) × List Ev
  | 0, _ => (none, [])
  | fuel+1, k =>
    let path := statsPath baseUrl owner repo
    let r := responses k
    if r.status = 202 then
      let next := contributorsLoop responses delay baseUrl owner repo fuel (k+1)
      (next.1, Ev.acqGlobal :: Ev.httpGet path :: Ev.sleepEv delay :: Ev.relGlobal :: next.2)
    else if r.status = 204 then
      (some (Except.ok []), [Ev.acqGlobal, Ev.httpGet path, Ev.relGlobal])
    else if r.status = 403 then
      (some (Except.ok []), [Ev.acqGlobal, Ev.httpGet path, Ev.relGlobal])
    else if r.status = 200 then
      (some (Except.ok r.contribs), [Ev.acqGlobal, Ev.httpGet path, Ev.relGlobal])
    else
      (some (Except.error (PyExc.transportError
          ("unexpected response status " ++ toString r.status))),
        [Ev.acqGlobal, Ev.httpGet path, Ev.relGlobal])

/-- Lines 112-115, `GHClient.contributors`: wraps the whole poll loop in
`async with self.contributors_sem`, tags the result with owner and repo,
and releases the contributors semaphore on every exit path (the
`async with` block unwinds on an exception as well).  When the inner loop
does not terminate within the fuel, the release has not happened yet. -/
def contributors (responses : Nat → HttpResp) (delay : Nat)
    (baseUrl owner repo : String) (fuel : Nat) :
    Option (Except PyExc (String × String × List Contrib)) × List Ev :=
  let inner := contributorsLoop responses delay baseUrl owner repo fuel 0
  match inner.1 with
  | none => (none, Ev.acqStats :: inner.2)
  | some res =>
    (some (res.map (fun contr => (owner, repo, contr))),
     Ev.acqStats :: inner.2 ++ [Ev.relStats])

/-- Event classifiers used by the semaphore and counting properties. -/
def isAcqGlobal : Ev → Bool
  | .acqGlobal => true
  | _ => false

def isRelGlobal : Ev → Bool
  | .relGlobal => true
  | _ => false

def isHttpGet : Ev → Bool
  | .httpGet _ => true
  | _ => false

def isSleep : Ev → Bool
  | .sleepEv _ => true
  | _ => false

/-- Whether a permit of the global request semaphore is held just before
the i-th event of the trace: more acquisitions than releases so far. -/
def heldGlobal (tr : List Ev) (i : Nat) : Bool :=
  (tr.take i).countP isRelGlobal < (tr.take i).countP isAcqGlobal

lemma contributorsLoop_step (responses : Nat → HttpResp) (delay : Nat)
    (baseUrl owner repo : String) (fuel k : Nat) :
    contributorsLoop responses delay baseUrl owner repo (fuel + 1) k =
      (if (responses k).status = 202 then
        ((contributorsLoop responses delay baseUrl owner repo fuel (k+1)).1,
         Ev.acqGlobal :: Ev.httpGet (statsPath baseUrl owner repo) :: Ev.sleepEv delay ::
           Ev.relGlobal :: (contributorsLoop responses delay baseUrl owner repo fuel (k+1)).2)
      else if (responses k).status = 204 then
        (some (Except.ok []),
         [Ev.acqGlobal, Ev.httpGet (statsPath baseUrl owner repo), Ev.relGlobal])
      else if (responses k).status = 403 then
        (some (Except.ok []),
         [Ev.acqGlobal, Ev.httpGet (statsPath baseUrl owner repo), Ev.relGlobal])
      else if (responses k).status = 200 then
        (some (Except.ok (responses k).contribs),
         [Ev.acqGlobal, Ev.httpGet (statsPath baseUrl owner repo), Ev.relGlobal])
      else
        (some (Except.error (PyExc.transportError
            ("unexpected response status " ++ toString (responses k).status))),
         [Ev.acqGlobal, Ev.httpGet (statsPath baseUrl owner repo), Ev.relGlobal])) := rfl

lemma contributorsLoop_poll (responses : Nat → HttpResp) (delay : Nat)
    (baseUrl owner repo : String) :
    ∀ (N k : Nat), (∀ j, j < N → (responses (k + j)).status = 202) →
    (responses (k + N)).status = 200 →
    contributorsLoop responses delay baseUrl owner repo (N + 1) k =
      (some (Except.ok (responses (k + N)).contribs),
       (List.replicate N [Ev.acqGlobal, Ev.httpGet (statsPath baseUrl owner repo),
          Ev.sleepEv delay, Ev.relGlobal]).flatten
         ++ [Ev.acqGlobal, Ev.httpGet (statsPath baseUrl owner repo), Ev.relGlobal]) := by
  intro N
  induction N with
  | zero =>
    intro k _ h200
    have h200' : (responses k).status = 200 := by simpa using h200
    rw [contributorsLoop_step]
    simp [h200']
  | succ n ih =>
    intro k h202 h200
    have hk : (responses k).status = 202 := by
      have h := h202 0 (Nat.succ_pos n)
      simpa using h
    have h202' : ∀ j, j < n → (responses (k + 1 + j)).status = 202 := by
      intro j hj
      have h := h202 (j + 1) (by omega)
      have heq : k + (j + 1) = k + 1 + j := by omega
      rwa [heq] at h
    have h200' : (responses (k + 1 + n)).status = 200 := by
      have heq : k + (n + 1) = k + 1 + n := by omega
      rwa [heq] at h200
    have hrec := ih (k + 1) h202' h200'
    rw [contributorsLoop_step, hrec]
    have heq : k + 1 + n = k + (n + 1) := by omega
    simp [hk, List.replicate_succ, heq]

lemma countP_flatten_replicate (p : Ev → Bool) (B : List Ev) :
    ∀ n : Nat, ((List.replicate n B).flatten).countP p = n * B.countP p := by
  intro n
  induction n with
  | zero => simp
  | succ m ih =>
    simp only [List.replicate_succ, List.flatten_cons, List.countP_append, ih]
    ring

lemma filter_isSleep_poll (path : String) (delay : Nat) :
    ∀ n : Nat,
    ((List.replicate n [Ev.acqGlobal, Ev.httpGet path, Ev.sleepEv delay, Ev.relGlobal]).flatten
      ++ [Ev.acqGlobal, Ev.httpGet path, Ev.relGlobal]).filter isSleep =
      List.replicate n (Ev.sleepEv delay) := by
  intro n
  induction n with
  | zero => simp [isSleep]
  | succ m ih =>
    simp only [List.replicate_succ, List.flatten_cons, List.append_assoc,
      List.filter_append, List.filter_cons] at ih ⊢
    simp only [isSleep] at ih ⊢
    simp at ih ⊢
    exact ih

/-- Claim C3: if the stats endpoint answers 202 on the first N requests and
200 on request N, `GHClient.__contributors` (lines 117-140) issues exactly
N+1 requests, sleeps the configured delay exactly once after each 202
response, and returns the parsed payload of the 200 response; the delay's
configured default (`contrib_delay` in `GHClient.__init__`, line 77) is 5
seconds. -/
theorem poll_retry_spec (responses : Nat → HttpResp) (delay : Nat)
    (baseUrl owner repo : String) (N : Nat)
    (h202 : ∀ j, j < N → (responses j).status = 202)
    (h200 : (responses N).status = 200) :
    (contributorsLoop responses delay baseUrl owner repo (N + 1) 0).1 =
      some (Except.ok (responses N).contribs)
    ∧ ((contributorsLoop responses delay baseUrl owner repo (N + 1) 0).2).countP isHttpGet
        = N + 1
    ∧ ((contributorsLoop responses delay baseUrl owner repo (N + 1) 0).2).filter isSleep
        = List.replicate N (Ev.sleepEv delay)
    ∧ contribDelayDefault = 5 := by
  have h202' : ∀ j, j < N → (responses (0 + j)).status = 202 := by simpa using h202
  have h200' : (responses (0 + N)).status = 200 := by simpa using h200
  have h := contributorsLoop_poll responses delay baseUrl owner repo N 0 h202' h200'
  rw [h]
  refine ⟨by simp, ?_, filter_isSleep_poll _ _ N, rfl⟩
  simp [List.countP_append, countP_flatten_replicate, List.countP_cons, isHttpGet]

/-- Witness for `poll_retry_spec`: one 202 answer followed by a 200. -/
theorem poll_retry_spec_witness :
    (contributorsLoop
        (fun k => if k = 0 then ⟨202, [], ""⟩ else ⟨200, [⟨⟨"alice"⟩, [("total", 5)]⟩], ""⟩)
        5 GITHUB_DEFAULT_BASE_URL "acme" "r1" 2 0).1 =
      some (Except.ok [⟨⟨"alice"⟩, [("total", 5)]⟩])
    ∧ ((contributorsLoop
        (fun k => if k = 0 then ⟨202, [], ""⟩ else ⟨200, [⟨⟨"alice"⟩, [("total", 5)]⟩], ""⟩)
        5 GITHUB_DEFAULT_BASE_URL "acme" "r1" 2 0).2).countP isHttpGet = 2
    ∧ ((contributorsLoop
        (fun k => if k = 0 then ⟨202, [], ""⟩ else ⟨200, [⟨⟨"alice"⟩, [("total", 5)]⟩], ""⟩)
        5 GITHUB_DEFAULT_BASE_URL "acme" "r1" 2 0).2).filter isSleep = [Ev.sleepEv 5]
    ∧ contribDelayDefault = 5 :=
  poll_retry_spec
    (fun k => if k = 0 then ⟨202, [], ""⟩ else ⟨200, [⟨⟨"alice"⟩, [("total", 5)]⟩], ""⟩)
    5 GITHUB_DEFAULT_BASE_URL "acme" "r1" 1 (by decide) (by decide)

/-- Claim C4 counterexample: an unexpected status (500) with body "boom"
produces `RuntimeError('unexpected response status 500')` (line 139) — the
error value carries the status but is completely independent of the
response body (an identical run whose body is "zap" raises the identical
error), so the error does not carry the response body; the body is only
written to the log (line 138). -/
theorem transport_error_body_counterexample :
    (contributorsLoop (fun _ => ⟨500, [], "boom"⟩) 5 GITHUB_DEFAULT_BASE_URL "o" "r" 1 0).1 =
      some (Except.error (PyExc.transportError "unexpected response status 500"))
    ∧ (contributorsLoop (fun _ => ⟨500, [], "boom"⟩) 5 GITHUB_DEFAULT_BASE_URL "o" "r" 1 0).1 =
      (contributorsLoop (fun _ => ⟨500, [], "zap"⟩) 5 GITHUB_DEFAULT_BASE_URL "o" "r" 1 0).1 :=
  ⟨rfl, rfl⟩

/-- Claim C4 (amended): `__contributors` returns an empty stats list (not an
error) when the stats endpoint responds 204 or 403, and for any status other
than 200, 202, 204, 403 it fails with a TransportError carrying the response
status (but not the response body, which is only logged). -/
theorem status_handling_spec (resp : HttpResp) (delay : Nat)
    (baseUrl owner repo : String) :
    (resp.status = 204 →
      (contributorsLoop (fun _ => resp) delay baseUrl owner repo 1 0).1 =
        some (Except.ok []))
    ∧ (resp.status = 403 →
      (contributorsLoop (fun _ => resp) delay baseUrl owner repo 1 0).1 =
        some (Except.ok []))
    ∧ (resp.status ≠ 200 → resp.status ≠ 202 → resp.status ≠ 204 → resp.status ≠ 403 →
      (contributorsLoop (fun _ => resp) delay baseUrl owner repo 1 0).1 =
        some (Except.error (PyExc.transportError
          ("unexpected response status " ++ toString resp.status)))) := by
  refine ⟨?_, ?_, ?_⟩
  · intro h
    rw [contributorsLoop_step]
    simp [h]
  · intro h
    rw [contributorsLoop_step]
    simp [h]
  · intro h200 h202 h204 h403
    rw [contributorsLoop_step]
    simp [h200, h202, h204, h403]

/-- Witness for `status_handling_spec`: statuses 204, 403 and 500. -/
theorem status_handling_spec_witness :
    (contributorsLoop (fun _ => ⟨204, [], ""⟩) 5 "b" "o" "r" 1 0).1 = some (Except.ok [])
    ∧ (contributorsLoop (fun _ => ⟨403, [], ""⟩) 5 "b" "o" "r" 1 0).1 = some (Except.ok [])
    ∧ (contributorsLoop (fun _ => ⟨500, [], "body"⟩) 5 "b" "o" "r" 1 0).1 =
        some (Except.error (PyExc.transportError "unexpected response status 500")) :=
  ⟨(status_handling_spec ⟨204, [], ""⟩ 5 "b" "o" "r").1 rfl,
   (status_handling_spec ⟨403, [], ""⟩ 5 "b" "o" "r").2.1 rfl,
   (status_handling_spec ⟨500, [], "body"⟩ 5 "b" "o" "r").2.2
     (by decide) (by decide) (by decide) (by decide)⟩

/-- Claim C10: the stats-endpoint path used by the stats fetch (lines
119-121) is `/repos/{owner}/{repo}/stats/contributors` when the configured
base url equals `GITHUB_DEFAULT_BASE_URL`, and is that same path prefixed
with `/v3` for every other base url. -/
theorem stats_path_spec (baseUrl owner repo : String) :
    (baseUrl = GITHUB_DEFAULT_BASE_URL →
      statsPath baseUrl owner repo =
        "/repos/" ++ owner ++ "/" ++ repo ++ "/stats/contributors")
    ∧ (baseUrl ≠ GITHUB_DEFAULT_BASE_URL →
      statsPath baseUrl owner repo =
        "/v3" ++ ("/repos/" ++ owner ++ "/" ++ repo ++ "/stats/contributors")) := by
  constructor
  · intro h
    simp [statsPath, h]
  · intro h
    simp [statsPath, h]

/-- Witness for `stats_path_spec`: the default base url and a GitHub
Enterprise base url. -/
theorem stats_path_spec_witness :
    statsPath GITHUB_DEFAULT_BASE_URL "acme" "r1" = "/repos/acme/r1/stats/contributors"
    ∧ statsPath "https://ghe.example.com" "acme" "r1" =
        "/v3/repos/acme/r1/stats/contributors" :=
  ⟨(stats_path_spec GITHUB_DEFAULT_BASE_URL "acme" "r1").1 rfl,
   (stats_path_spec "https://ghe.example.com" "acme" "r1").2 (by decide)⟩

lemma contributorsLoop_trace_shape (responses : Nat → HttpResp) (delay : Nat)
    (baseUrl owner repo : String) :
    ∀ (fuel k : Nat) (res : Except PyExc (List Contrib)),
    (contributorsLoop responses delay baseUrl owner repo fuel k).1 = some res →
    ∃ n : Nat, (contributorsLoop responses delay baseUrl owner repo fuel k).2 =
      (List.replicate n [Ev.acqGlobal, Ev.httpGet (statsPath baseUrl owner repo),
        Ev.sleepEv delay, Ev.relGlobal]).flatten
        ++ [Ev.acqGlobal, Ev.httpGet (statsPath baseUrl owner repo), Ev.relGlobal] := by
  intro fuel
  induction fuel with
  | zero =>
    intro k res h
    simp [contributorsLoop] at h
  | succ m ih =>
    intro k res h
    rw [contributorsLoop_step] at h ⊢
    by_cases h202 : (responses k).status = 202
    · simp only [h202, if_true] at h ⊢
      obtain ⟨n, hn⟩ := ih (k+1) res h
      refine ⟨n + 1, ?_⟩
      rw [hn]
      simp [List.replicate_succ]
    · simp only [h202, if_false] at h ⊢
      refine ⟨0, ?_⟩
      simp only [List.replicate, List.flatten_nil, List.nil_append]
      split_ifs <;> rfl

lemma countP_shape_balance (path : String) (delay : Nat) (n : Nat) :
    ((List.replicate n [Ev.acqGlobal, Ev.httpGet path, Ev.sleepEv delay, Ev.relGlobal]).flatten
      ++ [Ev.acqGlobal, Ev.httpGet path, Ev.relGlobal]).countP isAcqGlobal =
    ((List.replicate n [Ev.acqGlobal, Ev.httpGet path, Ev.sleepEv delay, Ev.relGlobal]).flatten
      ++ [Ev.acqGlobal, Ev.httpGet path, Ev.relGlobal]).countP isRelGlobal := by
  simp [List.countP_append, countP_flatten_replicate, List.countP_cons,
    isAcqGlobal, isRelGlobal]

lemma sleep_held_prepend (path : String) (delay : Nat) (tr : List Ev)
    (htr : ∀ i : Nat, isSleep (tr.getD i Ev.relGlobal) = true → heldGlobal tr i = true) :
    ∀ i : Nat,
    isSleep ((Ev.acqGlobal :: Ev.httpGet path :: Ev.sleepEv delay :: Ev.relGlobal :: tr).getD
      i Ev.relGlobal) = true →
    heldGlobal (Ev.acqGlobal :: Ev.httpGet path :: Ev.sleepEv delay :: Ev.relGlobal :: tr)
      i = true := by
  intro i h
  rcases i with _ | (_ | (_ | (_ | i)))
  · simp [List.getD_cons_zero, isSleep] at h
  · simp [List.getD_cons_zero, List.getD_cons_succ, isSleep] at h
  · simp [heldGlobal, List.take_succ_cons, List.countP_cons, isAcqGlobal, isRelGlobal]
  · simp [List.getD_cons_zero, List.getD_cons_succ, isSleep] at h
  · have h' : isSleep (tr.getD i Ev.relGlobal) = true := by
      simpa [List.getD_cons_succ] using h
    have hh := htr i h'
    simp only [heldGlobal, decide_eq_true_eq] at hh ⊢
    simp only [List.take_succ_cons, List.countP_cons, isAcqGlobal, isRelGlobal] at hh ⊢
    simp at hh ⊢
    omega

lemma sleep_held_shape (path : String) (delay : Nat) :
    ∀ n i : Nat,
    isSleep ((((List.replicate n [Ev.acqGlobal, Ev.httpGet path, Ev.sleepEv delay,
        Ev.relGlobal]).flatten
      ++ [Ev.acqGlobal, Ev.httpGet path, Ev.relGlobal]).getD i Ev.relGlobal)) = true →
    heldGlobal ((List.replicate n [Ev.acqGlobal, Ev.httpGet path, Ev.sleepEv delay,
        Ev.relGlobal]).flatten
      ++ [Ev.acqGlobal, Ev.httpGet path, Ev.relGlobal]) i = true := by
  intro n
  induction n with
  | zero =>
    intro i h
    exfalso
    rcases i with _ | (_ | (_ | i)) <;>
      simp [List.getD_cons_zero, List.getD_cons_succ, List.getD, isSleep] at h
  | succ m ih =>
    have hshape :
        ((List.replicate (m + 1) [Ev.acqGlobal, Ev.httpGet path, Ev.sleepEv delay,
            Ev.relGlobal]).flatten
          ++ [Ev.acqGlobal, Ev.httpGet path, Ev.relGlobal]) =
        Ev.acqGlobal :: Ev.httpGet path :: Ev.sleepEv delay :: Ev.relGlobal ::
          ((List.replicate m [Ev.acqGlobal, Ev.httpGet path, Ev.sleepEv delay,
              Ev.relGlobal]).flatten
            ++ [Ev.acqGlobal, Ev.httpGet path, Ev.relGlobal]) := by
      simp [List.replicate_succ]
    rw [hshape]
    exact sleep_held_prepend path delay _ ih

/-- Claim C9 counterexample: in a run whose first response is 202 and whose
second is 200, the third trace event is the fixed retry sleep and the
global-semaphore permit is held at that point — the `asyncio.sleep` at line
126 sits inside the `async with self.request(...)` block (lines 122-126),
which releases the semaphore only when the block is left, so the permit IS
held during the 202-retry sleep. -/
theorem sleep_inside_permit_counterexample :
    ((contributorsLoop (fun k => if k = 0 then ⟨202, [], ""⟩ else ⟨200, [], ""⟩)
        5 GITHUB_DEFAULT_BASE_URL "o" "r" 2 0).2)[2]? = some (Ev.sleepEv 5)
    ∧ heldGlobal ((contributorsLoop (fun k => if k = 0 then ⟨202, [], ""⟩ else ⟨200, [], ""⟩)
        5 GITHUB_DEFAULT_BASE_URL "o" "r" 2 0).2) 2 = true := by
  constructor
  · rfl
  · rfl

/-- Claim C9 (amended): on every terminating run of the poll loop the
global-semaphore events are balanced and the trace decomposes into one
acquire/request/release block per HTTP request — so every exit path,
including the failure path, releases the acquired permit — but the permit
IS held during each fixed 202-retry sleep, because the sleep happens inside
the request block; the stats (contributors) semaphore is acquired once
around the full poll-protocol call and released at its end on every
terminating path, including failure. -/
theorem semaphore_release_spec (responses : Nat → HttpResp) (delay : Nat)
    (baseUrl owner repo : String) (fuel : Nat) (res : Except PyExc (List Contrib))
    (hterm : (contributorsLoop responses delay baseUrl owner repo fuel 0).1 = some res) :
    ((contributorsLoop responses delay baseUrl owner repo fuel 0).2).countP isAcqGlobal =
      ((contributorsLoop responses delay baseUrl owner repo fuel 0).2).countP isRelGlobal
    ∧ (∃ n : Nat, (contributorsLoop responses delay baseUrl owner repo fuel 0).2 =
        (List.replicate n [Ev.acqGlobal, Ev.httpGet (statsPath baseUrl owner repo),
          Ev.sleepEv delay, Ev.relGlobal]).flatten
          ++ [Ev.acqGlobal, Ev.httpGet (statsPath baseUrl owner repo), Ev.relGlobal])
    ∧ (∀ i : Nat,
        isSleep (((contributorsLoop responses delay baseUrl owner repo fuel 0).2).getD
          i Ev.relGlobal) = true →
        heldGlobal ((contributorsLoop responses delay baseUrl owner repo fuel 0).2) i = true)
    ∧ (contributors responses delay baseUrl owner repo fuel).2 =
        Ev.acqStats :: (contributorsLoop responses delay baseUrl owner repo fuel 0).2
          ++ [Ev.relStats] := by
  obtain ⟨n, hn⟩ :=
    contributorsLoop_trace_shape responses delay baseUrl owner repo fuel 0 res hterm
  refine ⟨?_, ⟨n, hn⟩, ?_, ?_⟩
  · rw [hn]
    exact countP_shape_balance _ _ n
  · rw [hn]
    exact sleep_held_shape _ _ n
  · simp [contributors, hterm]

/-- Witness for `semaphore_release_spec`: a 202 answer followed by a 200. -/
theorem semaphore_release_spec_witness :
    ((contributorsLoop (fun k => if k = 0 then ⟨202, [], ""⟩ else ⟨200, [], ""⟩)
        5 GITHUB_DEFAULT_BASE_URL "o" "r" 2 0).2).countP isAcqGlobal =
      ((contributorsLoop (fun k => if k = 0 then ⟨202, [], ""⟩ else ⟨200, [], ""⟩)
        5 GITHUB_DEFAULT_BASE_URL "o" "r" 2 0).2).countP isRelGlobal :=
  (semaphore_release_spec (fun k => if k = 0 then ⟨202, [], ""⟩ else ⟨200, [], ""⟩)
    5 GITHUB_DEFAULT_BASE_URL "o" "r" 2 (Except.ok []) rfl).1

/-- The repo identification of one report record (lines 271-274). -/
structure RepoId where
  owner : String
  name : String
  deriving DecidableEq

/-- One emitted report record (lines 270-276):
`{'repo': {'owner': ..., 'name': ...}, 'stats': stats[0]}`. -/
structure ReportEntry where
  repo : RepoId
  stats : Contrib
  deriving DecidableEq

/-- The outcome of one completed stats task as observed by `await task`
(line 263): either the `(owner, repo, contributions)` triple returned by
`GHClient.contributors`, or the exception the task raised. -/
inductive TaskOutcome where
  | ok (owner repo : String) (contributions : List Contrib)
  | exc (e : PyExc)

/-- Lines 258-278, the fan-in loop of `list_contributions`, folded over the
completed task outcomes in completion order; `acc` is the accumulated
`user_stats`.  A `RuntimeError` — a TransportError or ProtocolError — is
caught and only logged (lines 264-265); any other exception propagates out
of the loop and aborts the scan with that exception.  A successful triple
is filtered for stats whose author login equals the username exactly
(lines 267-268); when the filter result is non-empty, one entry carrying
the repository's owner and name and the first matching stat (`stats[0]`)
is appended (lines 269-277). -/
def listContributionsLoop (username : String) :
    List ReportEntry → List TaskOutcome → Except PyExc (List ReportEntry)
  | acc, [] => Except.ok acc
  | acc, TaskOutcome.ok owner repo contributions :: rest =>
    match contributions.filter (fun c => c.author.login == username) with
    | [] => listContributionsLoop username acc rest
    | s :: _ => listContributionsLoop username (acc ++ [⟨⟨owner, repo⟩, s⟩]) rest
  | acc, TaskOutcome.exc e :: rest =>
    if e.isRuntimeError then listContributionsLoop username acc rest
    else Except.error e

/-- The report entry a single successful task `(owner, repo, contributions)`
contributes, if any: the first stat whose author login equals the
username (lines 267-276). -/
def entryOf (username : String) (t : String × String × List Contrib) :
    Option ReportEntry :=
  match t.2.2.filter (fun c => c.author.login == username) with
  | [] => none
  | s :: _ => some ⟨⟨t.1, t.2.1⟩, s⟩

lemma listContributionsLoop_ok (username : String)
    (results : List (String × String × List Contrib)) :
    ∀ acc : List ReportEntry,
    listContributionsLoop username acc
        (results.map (fun t => TaskOutcome.ok t.1 t.2.1 t.2.2)) =
      Except.ok (acc ++ results.filterMap (entryOf username)) := by
  induction results with
  | nil => intro acc; simp [listContributionsLoop]
  | cons t ts ih =>
    intro acc
    obtain ⟨o, r, cs⟩ := t
    simp only [List.map_cons]
    cases hfe : cs.filter (fun c => c.author.login == username) with
    | nil =>
      simp only [listContributionsLoop, hfe]
      rw [ih]
      simp [List.filterMap_cons, entryOf, hfe]
    | cons s ss =>
      simp only [listContributionsLoop, hfe]
      rw [ih]
      simp [List.filterMap_cons, entryOf, hfe]

/-- Claim C1: over completed stats fetches, a ReportEntry for a repository
is appended if and only if the fetched stats list contains an entry whose
author login equals the target username exactly; when it does, exactly one
entry is appended (the report of a run of successful tasks is the
`filterMap` of the per-task entries), carrying that repository's owner and
name and the matching author's stat; a repository whose stats contain no
such author contributes no entry. -/
theorem report_filter_spec (username : String)
    (results : List (String × String × List Contrib)) :
    listContributionsLoop username []
        (results.map (fun t => TaskOutcome.ok t.1 t.2.1 t.2.2)) =
      Except.ok (results.filterMap (entryOf username))
    ∧ (∀ (o r : String) (cs : List Contrib),
        (entryOf username (o, r, cs)).isSome ↔ ∃ c ∈ cs, c.author.login = username)
    ∧ (∀ (o r : String) (cs : List Contrib) (e : ReportEntry),
        entryOf username (o, r, cs) = some e →
        e.repo.owner = o ∧ e.repo.name = r ∧ e.stats ∈ cs ∧
          e.stats.author.login = username) := by
  refine ⟨by simpa using listContributionsLoop_ok username results [], ?_, ?_⟩
  · intro o r cs
    constructor
    · intro h
      cases hfe : cs.filter (fun c => c.author.login == username) with
      | nil => simp [entryOf, hfe] at h
      | cons s ss =>
        have hs : s ∈ cs.filter (fun c => c.author.login == username) := by
          rw [hfe]; exact List.mem_cons_self s ss
        have hm := List.mem_filter.mp hs
        exact ⟨s, hm.1, by simpa using hm.2⟩
    · rintro ⟨c, hc, hlogin⟩
      cases hfe : cs.filter (fun c => c.author.login == username) with
      | nil =>
        exfalso
        have hall := List.filter_eq_nil_iff.mp hfe c hc
        simp [hlogin] at hall
      | cons s ss => simp [entryOf, hfe]
  · intro o r cs e he
    cases hfe : cs.filter (fun c => c.author.login == username) with
    | nil => simp [entryOf, hfe] at he
    | cons s ss =>
      simp only [entryOf, hfe] at he
      have hs : s ∈ cs.filter (fun c => c.author.login == username) := by
        rw [hfe]; exact List.mem_cons_self s ss
      have hm := List.mem_filter.mp hs
      cases he
      exact ⟨rfl, rfl, hm.1, by simpa using hm.2⟩

/-- Witness for `report_filter_spec`: the spec's end-to-end scenario —
alice appears in acme/r1's stats, only bob appears in acme/r2's stats. -/
theorem report_filter_spec_witness :
    listContributionsLoop "alice" []
        (([("acme", "r1", [⟨⟨"alice"⟩, [("total", 5)]⟩]),
           ("acme", "r2", [⟨⟨"bob"⟩, [("total", 3)]⟩])] :
            List (String × String × List Contrib)).map
          (fun t => TaskOutcome.ok t.1 t.2.1 t.2.2)) =
      Except.ok [⟨⟨"acme", "r1"⟩, ⟨⟨"alice"⟩, [("total", 5)]⟩⟩]
    ∧ ((entryOf "alice" ("acme", "r2", [⟨⟨"bob"⟩, [("total", 3)]⟩])).isSome ↔
        ∃ c ∈ [(⟨⟨"bob"⟩, [("total", 3)]⟩ : Contrib)], c.author.login = "alice") :=
  ⟨(report_filter_spec "alice"
      [("acme", "r1", [⟨⟨"alice"⟩, [("total", 5)]⟩]),
       ("acme", "r2", [⟨⟨"bob"⟩, [("total", 3)]⟩])]).1,
   (report_filter_spec "alice" []).2.1 "acme" "r2" [⟨⟨"bob"⟩, [("total", 3)]⟩]⟩

lemma listContributionsLoop_skip (username : String) (e : PyExc)
    (he : e.isRuntimeError = true) (rs2 : List TaskOutcome) :
    ∀ (rs1 : List TaskOutcome) (acc : List ReportEntry),
    listContributionsLoop username acc (rs1 ++ TaskOutcome.exc e :: rs2) =
      listContributionsLoop username acc (rs1 ++ rs2) := by
  intro rs1
  induction rs1 with
  | nil =>
    intro acc
    simp [listContributionsLoop, he]
  | cons t ts ih =>
    intro acc
    cases t with
    | ok o r cs =>
      simp only [List.cons_append, listContributionsLoop]
      cases hfe : cs.filter (fun c => c.author.login == username) with
      | nil => exact ih acc
      | cons s ss => exact ih (acc ++ [⟨⟨o, r⟩, s⟩])
    | exc e' =>
      simp only [List.cons_append, listContributionsLoop]
      by_cases he' : e'.isRuntimeError
      · simp only [he', if_true]
        exact ih acc
      · simp [he']

/-- Claim C5: a stats task failing with a TransportError or a ProtocolError
(both raised as `RuntimeError`, lines 139 and 99) is caught by
`except RuntimeError` at the task boundary (line 264) and its repository is
omitted from the report, while every other task outcome is processed
exactly as it would have been without the failure — the final report equals
that of the remaining outcomes, so no such single task failure aborts the
scan. -/
theorem partial_failure_isolation (username : String) (acc : List ReportEntry)
    (rs1 rs2 : List TaskOutcome) (msg : String) (reason : JVal ⊕ String) :
    listContributionsLoop username acc
        (rs1 ++ TaskOutcome.exc (PyExc.transportError msg) :: rs2) =
      listContributionsLoop username acc (rs1 ++ rs2)
    ∧ listContributionsLoop username acc
        (rs1 ++ TaskOutcome.exc (PyExc.protocolError reason) :: rs2) =
      listContributionsLoop username acc (rs1 ++ rs2) :=
  ⟨listContributionsLoop_skip username (PyExc.transportError msg) rfl rs2 rs1 acc,
   listContributionsLoop_skip username (PyExc.protocolError reason) rfl rs2 rs1 acc⟩

/-- Claim C8 counterexample: a task failing with a connection reset — an
`aiohttp` client error, which is not a `RuntimeError` — is not caught by
`except RuntimeError` (line 264): the scan aborts with that exception, and
even the repositories whose tasks succeeded with matching stats (acme/r1
before the failure, acme/r2 after it) are lost from the report, as the
second conjunct shows by re-running the same outcomes without the failure. -/
theorem network_failure_counterexample :
    listContributionsLoop "alice" []
        [TaskOutcome.ok "acme" "r1" [⟨⟨"alice"⟩, [("total", 5)]⟩],
         TaskOutcome.exc (PyExc.networkError "connection reset"),
         TaskOutcome.ok "acme" "r2" [⟨⟨"alice"⟩, [("total", 7)]⟩]] =
      Except.error (PyExc.networkError "connection reset")
    ∧ listContributionsLoop "alice" []
        [TaskOutcome.ok "acme" "r1" [⟨⟨"alice"⟩, [("total", 5)]⟩],
         TaskOutcome.ok "acme" "r2" [⟨⟨"alice"⟩, [("total", 7)]⟩]] =
      Except.ok [⟨⟨"acme", "r1"⟩, ⟨⟨"alice"⟩, [("total", 5)]⟩⟩,
                 ⟨⟨"acme", "r2"⟩, ⟨⟨"alice"⟩, [("total", 7)]⟩⟩] :=
  ⟨rfl, rfl⟩

/-- Claim C8 (amended): a per-repository stats task failure that is not a
`RuntimeError` — a network-level failure such as a connection reset or DNS
failure — is NOT treated like TransportError at the task boundary: it is
not caught by `except RuntimeError` (line 264), so the scan aborts with an
error instead of merely dropping that repository. -/
theorem network_failure_aborts (username : String) (acc : List ReportEntry)
    (rs1 rs2 : List TaskOutcome) (e : PyExc) (he : e.isRuntimeError = false) :
    ∃ e' : PyExc, listContributionsLoop username acc
        (rs1 ++ TaskOutcome.exc e :: rs2) = Except.error e' := by
  induction rs1 generalizing acc with
  | nil =>
    refine ⟨e, ?_⟩
    simp [listContributionsLoop, he]
  | cons t ts ih =>
    cases t with
    | ok o r cs =>
      simp only [List.cons_append, listContributionsLoop]
      cases hfe : cs.filter (fun c => c.author.login == username) with
      | nil => exact ih acc
      | cons s ss => exact ih (acc ++ [⟨⟨o, r⟩, s⟩])
    | exc e' =>
      simp only [List.cons_append, listContributionsLoop]
      by_cases he' : e'.isRuntimeError
      · simp only [he', if_true]
        exact ih acc
      · exact ⟨e', by simp [he']⟩

/-- Witness for `network_failure_aborts`: a DNS failure as the only task
outcome. -/
theorem network_failure_aborts_witness :
    ∃ e' : PyExc, listContributionsLoop "alice" []
        ([] ++ TaskOutcome.exc (PyExc.networkError "dns failure") :: []) =
      Except.error e' :=
  network_failure_aborts "alice" [] [] [] (PyExc.networkError "dns failure") rfl

/-- An organization node of the `organizations` query (lines 149-152 and
166): the script only reads its `login` (line 226). -/
structure OrgNode where
  login : String
  deriving DecidableEq

/-- Lines 219-228, `affected_owners`: if the explicit owner list is truthy
(non-empty; the CLI hands over `None` when no `-o` flag was given, which is
falsy like `[]` and modelled as `[]`), yield each explicit owner in order;
otherwise yield the login of every organization obtained by paginating
`gh.organizations(username)` (the `paginated`-wrapped query, modelled as
`paginatedFuel` over the mocked page sequence `orgPages`); finally, in both
cases, yield the username itself last (line 228). -/
def affected_owners (username : String) (owners : List String)
    (orgPages : List (Page OrgNode)) (fuel : Nat) : Option (List String) :=
  if !owners.isEmpty then
    some (owners ++ [username])
  else
    match paginatedFuel (pagesFetch orgPages) fuel 0 none with
    | none => none
    | some res => some (res.1.map OrgNode.login ++ [username])

/-- Claim C6: `affected_owners` yields exactly each explicit owner in order
when the explicit owner list is non-empty, and otherwise every organization
login from paginating the user's organizations query; in both cases the
target user's own login is the final element. -/
theorem affected_owners_spec (username : String) (owners : List String)
    (orgPages : List (Page OrgNode)) (hne : orgPages ≠ [])
    (hmid : ∀ p ∈ orgPages.dropLast, p.pageInfo.hasNextPage = true)
    (hlast : (orgPages.getLast hne).pageInfo.hasNextPage = false) :
    (owners ≠ [] →
      affected_owners username owners orgPages orgPages.length =
        some (owners ++ [username]))
    ∧ (owners = [] →
      affected_owners username owners orgPages orgPages.length =
        some (((orgPages.map Page.items).flatten).map OrgNode.login ++ [username]))
    ∧ (∀ out : List String,
        affected_owners username owners orgPages orgPages.length = some out →
        out.getLast? = some username) := by
  have hpag := paginatedFuel_pagesFetch orgPages none hne hmid hlast
  refine ⟨?_, ?_, ?_⟩
  · intro h
    simp [affected_owners, h]
  · intro h
    subst h
    simp [affected_owners, hpag]
  · intro out hout
    by_cases h : owners.isEmpty
    · simp only [affected_owners, h, Bool.not_true, Bool.false_eq_true, if_false,
        hpag] at hout
      cases hout
      simp
    · simp only [affected_owners, h, Bool.not_false, if_true, Option.some.injEq] at hout
      cases hout
      simp

/-- Witness for `affected_owners_spec`: a one-page organizations answer,
once with an explicit owner and once without. -/
theorem affected_owners_spec_witness :
    affected_owners "alice" ["acme"]
        ([⟨[⟨"orgA"⟩], ⟨false, "c"⟩⟩] : List (Page OrgNode)) 1 =
      some ["acme", "alice"]
    ∧ affected_owners "alice" []
        ([⟨[⟨"orgA"⟩], ⟨false, "c"⟩⟩] : List (Page OrgNode)) 1 =
      some ["orgA", "alice"] :=
  ⟨(affected_owners_spec "alice" ["acme"] [⟨[⟨"orgA"⟩], ⟨false, "c"⟩⟩]
      (by decide) (by decide) (by decide)).1 (by decide),
   (affected_owners_spec "alice" [] [⟨[⟨"orgA"⟩], ⟨false, "c"⟩⟩]
      (by decide) (by decide) (by decide)).2.1 rfl⟩

/-- Claim C7 counterexample: a response whose JSON object DOES contain a
top-level `data` field — holding an empty object — is not missing its data
payload, yet `gql_request` fails with a ProtocolError carrying the raw
body: line 95 tests Python truthiness (`if not res.get('data', None)`) and
the empty object is falsy. -/
theorem gql_falsy_data_counterexample :
    gql_request [("data", JVal.obj [])] "raw body" =
      Except.error (PyExc.protocolError (Sum.inr "raw body"))
    ∧ List.lookup "data" [("data", JVal.obj [])] = some (JVal.obj []) :=
  ⟨rfl, rfl⟩

/-- Claim C7 (amended): `gql_request` fails with a ProtocolError if and
only if the response's top-level `data` value — taken as null when the
field is absent — is falsy in Python's sense (absent, null, false, 0,
empty string, empty list or empty object); on failure the error carries the
server-reported `errors` value when that key is present and the raw
response body otherwise; when the data value is truthy, the call returns
exactly that data object. -/
theorem gql_request_spec (res : List (String × JVal)) (text : String) :
    (((List.lookup "data" res).getD JVal.null).truthy = true →
      ∃ d : JVal, List.lookup "data" res = some d ∧
        gql_request res text = Except.ok d)
    ∧ (((List.lookup "data" res).getD JVal.null).truthy = false →
      ((∀ errs : JVal, List.lookup "errors" res = some errs →
          gql_request res text = Except.error (PyExc.protocolError (Sum.inl errs)))
        ∧ (List.lookup "errors" res = none →
          gql_request res text =
            Except.error (PyExc.protocolError (Sum.inr text))))) := by
  constructor
  · intro h
    cases hd : List.lookup "data" res with
    | none =>
      rw [hd] at h
      simp [JVal.truthy] at h
    | some d =>
      refine ⟨d, rfl, ?_⟩
      rw [hd, Option.getD_some] at h
      simp [gql_request, hd, h]
  · intro h
    constructor
    · intro errs herrs
      simp [gql_request, h, herrs]
    · intro herrs
      simp [gql_request, h, herrs]

/-- Witness for `gql_request_spec`: a truthy `data` response and a
data-less response carrying an `errors` value. -/
theorem gql_request_spec_witness :
    (∃ d : JVal, List.lookup "data" [("data", JVal.bool true)] = some d ∧
      gql_request [("data", JVal.bool true)] "t" = Except.ok d)
    ∧ gql_request [("errors", JVal.str "bad query")] "t" =
        Except.error (PyExc.protocolError (Sum.inl (JVal.str "bad query"))) :=
  ⟨(gql_request_spec [("data", JVal.bool true)] "t").1 rfl,
   ((gql_request_spec [("errors", JVal.str "bad query")] "t").2 rfl).1
     (JVal.str "bad query") rfl⟩
